import Mathlib

/-!
# Kiero bot — verification of the moderation scheduler and ticket subsystem

A shallow embedding of the core logic of the Kiero community-management bot
(`kiero_bot/common.py`, `kiero_bot/config.py`, `kiero_bot/moderation.py`,
`kiero_bot/tickets.py`, and the command layer in `cogs/moderation.py`).

The SQLite tables are modelled as Lean lists of row structures; each SQL
statement of the source becomes the corresponding pure list transformation
(`INSERT ... ON CONFLICT DO UPDATE` becomes update-if-present/append,
`DELETE ... WHERE` becomes a filter, a conditional `UPDATE` becomes a map).
The in-memory `TEMP_ACTION_TASKS` registry together with the persistent
table forms a scheduler state on which `schedule_temporary_action`,
`cancel_temporary_action` and `restore_temporary_actions` act.  External
Discord calls (guild/member resolution, unban, timeout, channel creation)
are abstracted as explicit outcome parameters, exactly at the `try/except`
boundaries of the source.  Strings handed to the duration parser are
modelled as lists of characters; Python `int(...)` parsing is modelled
including its leniencies (surrounding ASCII whitespace, an optional sign,
and single underscores between digits).
-/

namespace Kiero

/-! ## Constants from `kiero_bot/config.py` -/

def ACTION_BAN : String := "ban"

def ACTION_MUTE : String := "mute"

def ACTION_TICKET_OPEN : String := "open"

def ACTION_TICKET_CLOSED : String := "closed"

def RETRY_DELAY_SECONDS : Int := 600

def MAX_TICKET_SUBJECT_LENGTH : Nat := 200

/-! ## Python string/int primitives used by `parse_duration`

`parse_duration` calls `raw.split(":")` and `int(part)`.  We model both
over `List Char`.  Python's `int` accepts optional surrounding whitespace,
an optional single sign, and decimal digits with single underscores
strictly between digits. -/

/-- The ASCII characters Python's `int` (and `str.strip`) treat as
whitespace: `\t`, `\n`, `\x0b`, `\x0c`, `\r`, `\x1c`-`\x1f` and space
(the ASCII portion of CPython's `Py_UNICODE_ISSPACE`). -/
def isPySpace (c : Char) : Bool :=
  c == ' ' || c == '\t' || c == '\n' || c == '\r' || c == '\x0b' || c == '\x0c'
    || c == '\x1c' || c == '\x1d' || c == '\x1e' || c == '\x1f'

/-- Strip leading and trailing whitespace, as Python does before parsing an int. -/
def pyTrim (l : List Char) : List Char :=
  ((l.dropWhile isPySpace).reverse.dropWhile isPySpace).reverse

/-- Numeric value of a decimal digit character. -/
def dval (c : Char) : Nat := c.toNat - 48

/-- Digit-run parser: digits with single underscores allowed strictly between
digits, accumulating the decimal value (the core of Python `int` parsing). -/
def pyDigitsCore : Nat → List Char → Option Nat
  | acc, [] => some acc
  | acc, [c] => if c.isDigit then some (10 * acc + dval c) else none
  | acc, c :: d :: cs =>
    if c.isDigit then pyDigitsCore (10 * acc + dval c) (d :: cs)
    else if c == '_' && d.isDigit then pyDigitsCore (10 * acc + dval d) cs
    else none

/-- Parse a nonempty digit run (underscore-separated) to its value. -/
def pyDigits? : List Char → Option Nat
  | [] => none
  | c :: cs => if c.isDigit then pyDigitsCore (dval c) cs else none

/-- Python `int(str)` on the relevant (ASCII) fragment: strip whitespace,
optional sign, digit run. `none` models the `ValueError` of `int`. -/
def pyInt? (l : List Char) : Option Int :=
  match pyTrim l with
  | [] => none
  | c :: cs =>
    if c == '+' then (pyDigits? cs).map (fun n : Nat => (n : Int))
    else if c == '-' then (pyDigits? cs).map (fun n : Nat => -(n : Int))
    else (pyDigits? (c :: cs)).map (fun n : Nat => (n : Int))

/-- Python `raw.split(":")`: always returns one more part than there are colons. -/
def splitOnColon : List Char → List (List Char)
  | [] => [[]]
  | c :: cs =>
    match splitOnColon cs with
    | [] => [[]]
    | g :: gs => if c == ':' then [] :: g :: gs else (c :: g) :: gs

/-! ## `parse_duration` / `format_duration` (`kiero_bot/common.py`) -/

/-- How a `parse_duration` call fails: every explicit `raise` in the source
is a `ValueError` with a message, and the `timedelta(...)` construction
itself raises an uncaught `OverflowError` when the normalized day count
exceeds `timedelta.max`. -/
inductive PyError where
  | valueError (msg : String)
  | overflowError
  deriving DecidableEq, Repr

/-- The largest total-seconds value `timedelta` can hold: CPython bounds
the normalized day count by 999999999, so the bound is
`999999999 * 86400 + 86399` seconds. -/
def TIMEDELTA_MAX_SECONDS : Int := 86399999999999

/-- `parse_duration` from `kiero_bot/common.py`: split on `:`, require exactly
four parts, convert each with `int`, reject negatives, bound hours/minutes/
seconds, construct the `timedelta` (which raises `OverflowError` past
`TIMEDELTA_MAX_SECONDS` — the values are nonnegative here, so only the
upper bound can trip), reject a nonpositive total.  The result is the
total number of seconds of the `timedelta`. -/
def parse_duration (raw : List Char) : Except PyError Int :=
  match splitOnColon raw with
  | [p1, p2, p3, p4] =>
    match pyInt? p1, pyInt? p2, pyInt? p3, pyInt? p4 with
    | some d, some h, some m, some s =>
      if d < 0 || h < 0 || m < 0 || s < 0 then
        Except.error (PyError.valueError "Duration values cannot be negative")
      else if 23 < h || 59 < m || 59 < s then
        Except.error (PyError.valueError "Hours must be <= 23, minutes/seconds <= 59")
      else if TIMEDELTA_MAX_SECONDS < d * 86400 + h * 3600 + m * 60 + s then
        Except.error PyError.overflowError
      else if d * 86400 + h * 3600 + m * 60 + s ≤ 0 then
        Except.error (PyError.valueError "Duration must be greater than zero")
      else
        Except.ok (d * 86400 + h * 3600 + m * 60 + s)
    | _, _, _, _ => Except.error (PyError.valueError "Duration must contain only numbers")
  | _ => Except.error (PyError.valueError "Duration format must be d:h:m:s")

/-- Decimal digit character, as produced by Python `str` of a nonnegative int. -/
def digitChar : Nat → Char
  | 0 => '0' | 1 => '1' | 2 => '2' | 3 => '3' | 4 => '4'
  | 5 => '5' | 6 => '6' | 7 => '7' | 8 => '8' | _ => '9'

/-- Decimal rendering of a natural number (Python `str`). -/
def natRepr (n : Nat) : List Char :=
  if _h : n < 10 then [digitChar n]
  else natRepr (n / 10) ++ [digitChar (n % 10)]
  termination_by n
  decreasing_by exact Nat.div_lt_self (by omega) (by omega)

/-- Decimal rendering of an integer (Python `str`). -/
def intRepr (i : Int) : List Char :=
  if i < 0 then '-' :: natRepr (-i).toNat else natRepr i.toNat

/-- `format_duration` from `kiero_bot/common.py`: successive `divmod` of the
total seconds by 86400 / 3600 / 60, rendered as `{d}d {h}h {m}m {s}s`.
Python `divmod` is floor division, i.e. `Int.ediv`/`Int.emod`. -/
def format_duration (total : Int) : List Char :=
  let days := total / 86400
  let r1 := total % 86400
  let hours := r1 / 3600
  let r2 := r1 % 3600
  let minutes := r2 / 60
  let seconds := r2 % 60
  intRepr days ++ 'd' :: ' ' :: intRepr hours ++ 'h' :: ' ' :: intRepr minutes
    ++ 'm' :: ' ' :: intRepr seconds ++ ['s']

/-- The duration string `d:h:m:s` built from canonical decimal components. -/
def durationString (d h m s : Nat) : List Char :=
  natRepr d ++ (':' :: (natRepr h ++ (':' :: (natRepr m ++ (':' :: natRepr s)))))

/-- Spec-side predicate, following the words of the claim: the input is
exactly four colon-separated nonempty decimal digit strings
`days:hours:minutes:seconds` with hours ≤ 23, minutes ≤ 59, seconds ≤ 59
and a positive total.  To be compared with what `parse_duration` accepts. -/
def claimed_valid_duration (raw : List Char) : Bool :=
  match splitOnColon raw with
  | [p1, p2, p3, p4] =>
    !p1.isEmpty && !p2.isEmpty && !p3.isEmpty && !p4.isEmpty
      && p1.all Char.isDigit && p2.all Char.isDigit
      && p3.all Char.isDigit && p4.all Char.isDigit
      && (p1.foldl (fun a c => 10 * a + dval c) 0) * 86400
          + (p2.foldl (fun a c => 10 * a + dval c) 0) * 3600
          + (p3.foldl (fun a c => 10 * a + dval c) 0) * 60
          + (p4.foldl (fun a c => 10 * a + dval c) 0) > 0
      && (p2.foldl (fun a c => 10 * a + dval c) 0) ≤ 23
      && (p3.foldl (fun a c => 10 * a + dval c) 0) ≤ 59
      && (p4.foldl (fun a c => 10 * a + dval c) 0) ≤ 59
  | _ => false

/-- What the code actually accepts: four colon-separated parts, each accepted
by Python's `int` with nonnegative value, hours ≤ 23, minutes ≤ 59,
seconds ≤ 59, positive total, and a total within the `timedelta` bound. -/
def py_valid_duration (raw : List Char) : Bool :=
  match splitOnColon raw with
  | [p1, p2, p3, p4] =>
    match pyInt? p1, pyInt? p2, pyInt? p3, pyInt? p4 with
    | some d, some h, some m, some s =>
      0 ≤ d && 0 ≤ h && 0 ≤ m && 0 ≤ s && h ≤ 23 && m ≤ 59 && s ≤ 59
        && 0 < d * 86400 + h * 3600 + m * 60 + s
        && d * 86400 + h * 3600 + m * 60 + s ≤ TIMEDELTA_MAX_SECONDS
    | _, _, _, _ => false
  | _ => false

/-- The inputs on which the `timedelta` construction overflows: four
`int`-acceptable nonnegative parts within the hour/minute/second bounds
whose total exceeds `TIMEDELTA_MAX_SECONDS`. -/
def py_overflow_duration (raw : List Char) : Bool :=
  match splitOnColon raw with
  | [p1, p2, p3, p4] =>
    match pyInt? p1, pyInt? p2, pyInt? p3, pyInt? p4 with
    | some d, some h, some m, some s =>
      0 ≤ d && 0 ≤ h && 0 ≤ m && 0 ≤ s && h ≤ 23 && m ≤ 59 && s ≤ 59
        && TIMEDELTA_MAX_SECONDS < d * 86400 + h * 3600 + m * 60 + s
    | _, _, _, _ => false
  | _ => false

/-! ## Temporary actions: store and scheduler (`kiero_bot/moderation.py`)

The `temporary_actions` SQLite table (primary key
`(action_type, guild_id, user_id)`) is a list of rows; the process-wide
`TEMP_ACTION_TASKS` registry is a list of task entries.  A task entry
records the key under which the `asyncio` task was registered, a fresh
task identifier, and the `expires_at`/`reason` arguments its coroutine
was created with. -/

/-- Key of the `temporary_actions` table and of the task registry:
`(action_type, guild_id, user_id)`. -/
abbrev ActionKey := String × Nat × Nat

/-- A row of the `temporary_actions` table. -/
structure TempRow where
  action_type : String
  guild_id : Nat
  user_id : Nat
  expires_at : Int
  reason : String
  created_at : Int
  deriving DecidableEq, Repr

/-- The primary key of a row. -/
def TempRow.key (r : TempRow) : ActionKey := (r.action_type, r.guild_id, r.user_id)

/-- The `temporary_actions` table. -/
abbrev TempTable := List TempRow

/-- The `WHERE action_type = ? AND guild_id = ? AND user_id = ?` filter. -/
def rowMatches (a : String) (g u : Nat) (r : TempRow) : Bool :=
  r.action_type == a && r.guild_id == g && r.user_id == u

/-- `save_temporary_action`: `INSERT ... ON CONFLICT(action_type, guild_id,
user_id) DO UPDATE SET expires_at, reason, created_at` — update the matching
row if one exists, otherwise append a fresh row. -/
def save_temporary_action (t : TempTable) (a : String) (g u : Nat)
    (expires_at : Int) (reason : String) (now : Int) : TempTable :=
  if t.any (rowMatches a g u) then
    t.map fun r =>
      if rowMatches a g u r then
        { r with expires_at := expires_at, reason := reason, created_at := now }
      else r
  else t ++ [⟨a, g, u, expires_at, reason, now⟩]

/-- `delete_temporary_action`: `DELETE FROM temporary_actions WHERE ...`. -/
def delete_temporary_action (t : TempTable) (a : String) (g u : Nat) : TempTable :=
  t.filter fun r => !rowMatches a g u r

/-- The rows of the table holding a given key (what a `SELECT` by key returns). -/
def table_rows_for (t : TempTable) (a : String) (g u : Nat) : TempTable :=
  t.filter (rowMatches a g u)

/-- An entry of the in-memory `TEMP_ACTION_TASKS` registry: the key it is
registered under, a task identifier, and the `expires_at`/`reason` the
`process_temporary_action` coroutine was started with. -/
structure TaskEntry where
  key : ActionKey
  tid : Nat
  expires_at : Int
  reason : String
  deriving DecidableEq, Repr

/-- Scheduler state: the persistent table plus the in-memory task registry
(`nextTask` supplies fresh task identifiers). -/
structure SchedState where
  table : TempTable
  tasks : List TaskEntry
  nextTask : Nat
  deriving DecidableEq, Repr

/-- The registry entries registered under a given key. -/
def tasks_for (s : SchedState) (k : ActionKey) : List TaskEntry :=
  s.tasks.filter fun e => e.key == k

/-- `cancel_temporary_action`: pop the key from `TEMP_ACTION_TASKS`, cancel
the task, and delete the persisted row iff `delete_from_db`. -/
def cancel_temporary_action (s : SchedState) (a : String) (g u : Nat)
    (delete_from_db : Bool) : SchedState :=
  let s1 : SchedState := { s with tasks := s.tasks.filter fun e => !(e.key == (a, g, u)) }
  if delete_from_db then { s1 with table := delete_temporary_action s1.table a g u } else s1

/-- `schedule_temporary_action`: cancel any existing task for the key
(without touching the database), then create and register a fresh
`process_temporary_action` task under the key. -/
def schedule_temporary_action (s : SchedState) (a : String) (g u : Nat)
    (expires_at : Int) (reason : String) : SchedState :=
  let s1 := cancel_temporary_action s a g u false
  { s1 with
    tasks := s1.tasks ++ [⟨(a, g, u), s1.nextTask, expires_at, reason⟩],
    nextTask := s1.nextTask + 1 }

/-- `restore_temporary_actions`: load every persisted row and schedule it
with its already-persisted expiry and reason. -/
def restore_temporary_actions (s : SchedState) : SchedState :=
  s.table.foldl
    (fun st r => schedule_temporary_action st r.action_type r.guild_id r.user_id
      r.expires_at r.reason)
    s

/-- The `ban`/`mute` command tail (`cogs/moderation.py`): persist the row
with `save_temporary_action`, then start the task with
`schedule_temporary_action`. -/
def schedule_with_persist (s : SchedState) (a : String) (g u : Nat)
    (expires_at : Int) (reason : String) (now : Int) : SchedState :=
  schedule_temporary_action
    { s with table := save_temporary_action s.table a g u expires_at reason now }
    a g u expires_at reason

/-! ## Reversal executor (`perform_automatic_unban` / `perform_automatic_unmute`)

Each Discord call site is abstracted by the outcome the `try/except`
classifies: success, `discord.NotFound`, `discord.Forbidden`, or another
`discord.HTTPException`. -/

/-- Outcome of one external Discord API call. -/
inductive ApiCall where
  | success
  | notFound
  | forbidden
  | httpError
  deriving DecidableEq, Repr

/-- `resolve_guild`: the guild resolves iff it is in the cache
(`bot.get_guild`) or `bot.fetch_guild` succeeds (all three exception kinds
yield `None`). -/
def resolve_guild_ok (guild_cached : Bool) (fetch_guild : ApiCall) : Bool :=
  guild_cached || fetch_guild == ApiCall.success

/-- Environment of one `perform_automatic_unban` attempt. -/
structure UnbanEnv where
  guild_cached : Bool
  fetch_guild : ApiCall
  unban : ApiCall
  deriving DecidableEq, Repr

/-- `perform_automatic_unban`: `True` means Done, `False` means Retry.
Unresolvable guild → Retry; `guild.unban` success or `NotFound` → Done;
`Forbidden` or other `HTTPException` → Retry. -/
def perform_automatic_unban (e : UnbanEnv) : Bool :=
  if !resolve_guild_ok e.guild_cached e.fetch_guild then false
  else
    match e.unban with
    | ApiCall.success => true
    | ApiCall.notFound => true
    | ApiCall.forbidden => false
    | ApiCall.httpError => false

/-- Environment of one `perform_automatic_unmute` attempt. -/
structure UnmuteEnv where
  guild_cached : Bool
  fetch_guild : ApiCall
  member_cached : Bool
  fetch_member : ApiCall
  timeout : ApiCall
  deriving DecidableEq, Repr

/-- Outcome classification of the `member.timeout(None)` call. -/
def timeout_outcome (c : ApiCall) : Bool :=
  match c with
  | ApiCall.success => true
  | ApiCall.notFound => true
  | ApiCall.forbidden => false
  | ApiCall.httpError => false

/-- `perform_automatic_unmute`: unresolvable guild → Retry; member neither
cached nor fetchable: `NotFound` → Done, `Forbidden`/`HTTPException` →
Retry; then `member.timeout(None)` classified like the unban call. -/
def perform_automatic_unmute (e : UnmuteEnv) : Bool :=
  if !resolve_guild_ok e.guild_cached e.fetch_guild then false
  else if !e.member_cached then
    match e.fetch_member with
    | ApiCall.notFound => true
    | ApiCall.forbidden => false
    | ApiCall.httpError => false
    | ApiCall.success => timeout_outcome e.timeout
  else timeout_outcome e.timeout

/-! ## The reversal task loop (`process_temporary_action`)

The loop body: sleep until the attempt time, perform the reversal for the
action kind, and either delete the row and return (Done, or unrecognized
kind) or persist `now + RETRY_DELAY_SECONDS` as the new expiry and loop.
`process_step` is one iteration given the attempt outcome; its second
component is `none` when the task terminates and `some nextAttempt` when
it loops.  `process_run` chains iterations through outcome and clock
oracles (with fuel), returning the final table on termination. -/

/-- `delay = max(0, next_attempt - current_timestamp())`; the task sleeps
only when this is positive. -/
def compute_delay (next_attempt now : Int) : Int :=
  max 0 (next_attempt - now)

/-- One iteration of the `process_temporary_action` loop, given the outcome
`is_done` of the reversal attempt performed at time `now`. -/
def process_step (t : TempTable) (a : String) (g u : Nat) (reason : String)
    (now : Int) (is_done : Bool) : TempTable × Option Int :=
  if a == ACTION_BAN || a == ACTION_MUTE then
    if is_done then (delete_temporary_action t a g u, none)
    else
      (save_temporary_action t a g u (now + RETRY_DELAY_SECONDS) reason now,
        some (now + RETRY_DELAY_SECONDS))
  else (delete_temporary_action t a g u, none)

/-- The whole retry loop: attempt `i` happens at time `time i` with outcome
`outcome i`.  Returns `some finalTable` when the loop terminates within
`fuel` iterations. -/
def process_run (a : String) (g u : Nat) (reason : String)
    (outcome : Nat → Bool) (time : Nat → Int) :
    Nat → Nat → TempTable → Option TempTable
  | 0, _, _ => none
  | fuel + 1, i, t =>
    match process_step t a g u reason (time i) (outcome i) with
    | (t2, none) => some t2
    | (t2, some _) => process_run a g u reason outcome time fuel (i + 1) t2

/-! ## Tickets (`kiero_bot/tickets.py`)

`ticket_counters` (primary key `guild_id`) and `tickets` (primary key
`channel_id`) are lists of rows; `ticket_settings` is carried as a record.
`SELECT ... fetchone` is `List.find?`. -/

/-- A row of `ticket_counters`. -/
abbrev CounterTable := List (Nat × Int)

/-- `SELECT last_number FROM ticket_counters WHERE guild_id = ?`. -/
def counter_lookup (t : CounterTable) (g : Nat) : Option Int :=
  (t.find? fun p => p.1 == g).map fun p => p.2

/-- `next_ticket_number`: read-or-initialize the counter row and increment
it: no row → insert `(g, 1)` and return 1; row `v` → store and return
`v + 1`. -/
def next_ticket_number (t : CounterTable) (g : Nat) : Int × CounterTable :=
  match counter_lookup t g with
  | none => (1, t ++ [(g, 1)])
  | some v => (v + 1, t.map fun p => if p.1 == g then (p.1, v + 1) else p)

/-- `next_ticket_number` called `n` times in succession for the same guild:
the list of returned numbers and the final counter table. -/
def run_next : CounterTable → Nat → Nat → List Int × CounterTable
  | t, _, 0 => ([], t)
  | t, g, n + 1 =>
    let r1 := next_ticket_number t g
    let rest := run_next r1.2 g n
    (r1.1 :: rest.1, rest.2)

/-- The stored counter value, defaulting to 0 when no row exists (so the
next issued number is always `counter_base + 1`). -/
def counter_base (t : CounterTable) (g : Nat) : Int :=
  (counter_lookup t g).getD 0

/-- A row of the `tickets` table.  `subject` is kept as a character list
because its length is checked against `MAX_TICKET_SUBJECT_LENGTH`. -/
structure TicketRow where
  channel_id : Nat
  guild_id : Nat
  ticket_number : Int
  owner_id : Nat
  status : String
  subject : List Char
  created_at : Int
  closed_at : Option Int
  closed_by : Option Nat
  closed_reason : Option String
  deriving DecidableEq, Repr

/-- The `tickets` table. -/
abbrev TicketTable := List TicketRow

/-- `ticket_settings` row (the `TicketSettings` dataclass).  The
`ticket_name_stem` field mirrors the channel-name prefix column. -/
structure TicketSettings where
  guild_id : Nat
  category_id : Nat
  support_role_id : Nat
  log_channel_id : Option Nat
  panel_channel_id : Option Nat
  max_open_tickets : Int
  ticket_name_stem : String
  deriving DecidableEq, Repr

/-- `create_ticket_record`: plain `INSERT` of an Open row with empty
closure fields. -/
def create_ticket_record (t : TicketTable) (channel_id guild_id : Nat)
    (ticket_number : Int) (owner_id : Nat) (subject : List Char) (now : Int) :
    TicketTable :=
  t ++ [⟨channel_id, guild_id, ticket_number, owner_id, ACTION_TICKET_OPEN,
    subject, now, none, none, none⟩]

/-- The `WHERE guild_id = ? AND owner_id = ? AND status = 'open'` filter. -/
def openOwnedBy (g o : Nat) (r : TicketRow) : Bool :=
  r.guild_id == g && r.owner_id == o && r.status == ACTION_TICKET_OPEN

/-- `count_open_tickets_for_owner`: `SELECT COUNT(*)` over open tickets of
one owner in one guild. -/
def count_open_tickets_for_owner (t : TicketTable) (g o : Nat) : Nat :=
  (t.filter (openOwnedBy g o)).length

/-- The `WHERE channel_id = ? AND status = 'open'` filter of the
conditional close update. -/
def openWithChannel (c : Nat) (r : TicketRow) : Bool :=
  r.channel_id == c && r.status == ACTION_TICKET_OPEN

/-- `close_ticket_record`: `UPDATE tickets SET status = 'closed', closed_at,
closed_by, closed_reason WHERE channel_id = ? AND status = 'open'`. -/
def close_ticket_record (t : TicketTable) (channel_id : Nat) (closed_by : Nat)
    (close_reason : String) (now : Int) : TicketTable :=
  t.map fun r =>
    if openWithChannel channel_id r then
      { r with
        status := ACTION_TICKET_CLOSED
        closed_at := some now
        closed_by := some closed_by
        closed_reason := some close_reason }
    else r

/-- The number of rows the conditional close update affects
(`cursor.rowcount` of the SQL `UPDATE`). -/
def close_affected (t : TicketTable) (channel_id : Nat) : Nat :=
  (t.filter (openWithChannel channel_id)).length

/-- The database state the ticket commands act on. -/
structure TicketDb where
  tickets : TicketTable
  counters : CounterTable
  deriving DecidableEq, Repr

/-- How far `create_ticket_for_interaction` got, and with what. -/
inductive CreateResult where
  | notInGuild
  | notConfigured
  | categoryMissing
  | roleMissing
  | quotaExceeded
  | subjectTooLong
  | botMemberMissing
  | channelCreateFailed
  | created (ticket_number : Int) (channel_id : Nat)
  deriving DecidableEq, Repr

/-- Environment of one ticket-creation attempt: every external fact the
handler branches on, in source order. -/
structure CreateEnv where
  in_guild : Bool
  settings : Option TicketSettings
  category_ok : Bool
  support_role_ok : Bool
  bot_member_ok : Bool
  guild_id : Nat
  actor_id : Nat
  subject : Option (List Char)
  channel_create : Option Nat
  deriving DecidableEq, Repr

/-- The default subject text. -/
def default_subject : List Char := "No subject provided.".toList

/-- `(subject or "No subject provided.").strip()`, re-defaulted when blank. -/
def clean_subject (subject : Option (List Char)) : List Char :=
  let raw := match subject with
    | none => default_subject
    | some s => if s.isEmpty then default_subject else s
  let st := pyTrim raw
  if st.isEmpty then default_subject else st

/-- `create_ticket_for_interaction`: guard chain in source order (guild,
settings, category, support role, open-ticket quota, subject length, bot
member), then allocate the ticket number, create the channel, and insert
the Open row. -/
def create_ticket_for_interaction (db : TicketDb) (e : CreateEnv) (now : Int) :
    TicketDb × CreateResult :=
  if !e.in_guild then (db, CreateResult.notInGuild)
  else
    match e.settings with
    | none => (db, CreateResult.notConfigured)
    | some settings =>
      if !e.category_ok then (db, CreateResult.categoryMissing)
      else if !e.support_role_ok then (db, CreateResult.roleMissing)
      else if settings.max_open_tickets ≤
          (count_open_tickets_for_owner db.tickets e.guild_id e.actor_id : Int) then
        (db, CreateResult.quotaExceeded)
      else
        let cleaned := clean_subject e.subject
        if MAX_TICKET_SUBJECT_LENGTH < cleaned.length then
          (db, CreateResult.subjectTooLong)
        else if !e.bot_member_ok then (db, CreateResult.botMemberMissing)
        else
          let r := next_ticket_number db.counters e.guild_id
          match e.channel_create with
          | none => ({ db with counters := r.2 }, CreateResult.channelCreateFailed)
          | some channel_id =>
            let tickets2 :=
              create_ticket_record db.tickets channel_id e.guild_id r.1
                e.actor_id cleaned now
            (⟨tickets2, r.2⟩, CreateResult.created r.1 channel_id)

/-! ## Generic list lemmas -/

theorem filter_not_filter {α : Type} (p : α → Bool) (l : List α) :
    (l.filter fun x => !p x).filter p = [] := by
  induction l with
  | nil => rfl
  | cons x xs ih =>
    by_cases hx : p x = true
    · simp [List.filter_cons, hx, ih]
    · simp only [Bool.not_eq_true] at hx
      simp [List.filter_cons, hx, ih]

theorem filter_map_comm {α : Type} (p : α → Bool) (f : α → α) (l : List α)
    (hpf : ∀ x, p (f x) = p x) :
    (l.map f).filter p = (l.filter p).map f := by
  induction l with
  | nil => rfl
  | cons x xs ih =>
    by_cases hx : p x = true
    · simp [List.filter_cons, hx, hpf, ih]
    · simp only [Bool.not_eq_true] at hx
      simp [List.filter_cons, hx, hpf, ih]

/-! ## C10 — `schedule_temporary_action` writes nothing to the store -/

theorem foldl_schedule_table (rs : List TempRow) (s : SchedState) :
    (rs.foldl
      (fun st r => schedule_temporary_action st r.action_type r.guild_id
        r.user_id r.expires_at r.reason)
      s).table = s.table := by
  induction rs generalizing s with
  | nil => rfl
  | cons r rest ih => exact (ih _).trans rfl

/-- C10: `schedule_temporary_action` performs no write to the persistent
store — it only updates the in-memory task registry, leaving the
`temporary_actions` table unchanged; `restore_temporary_actions` likewise
schedules every row without rewriting the table; and the ban/mute command
tail changes the table exactly as its separate `save_temporary_action`
call does. -/
theorem schedule_performs_no_store_write (s : SchedState) (a : String)
    (g u : Nat) (e : Int) (r : String) (now : Int) :
    (schedule_temporary_action s a g u e r).table = s.table
    ∧ (restore_temporary_actions s).table = s.table
    ∧ (schedule_with_persist s a g u e r now).table
        = save_temporary_action s.table a g u e r now := by
  refine ⟨rfl, ?_, rfl⟩
  exact foldl_schedule_table s.table s

/-! ## C6 — outcome classification of the reversal executors -/

/-- C6: both reversal executors classify outcomes as the spec states:
an unresolvable community (neither cached nor fetchable) yields Retry
(`false`); target-not-found — `discord.NotFound` from the unban call, from
the member fetch, or from the timeout call — yields Done (`true`);
permission denial and other HTTP failures yield Retry; a plain successful
call yields Done. -/
theorem executor_outcome_classification :
    (∀ e : UnbanEnv,
      (resolve_guild_ok e.guild_cached e.fetch_guild = false →
        perform_automatic_unban e = false)
      ∧ (resolve_guild_ok e.guild_cached e.fetch_guild = true →
          e.unban = ApiCall.notFound → perform_automatic_unban e = true)
      ∧ (e.unban = ApiCall.forbidden → perform_automatic_unban e = false)
      ∧ (e.unban = ApiCall.httpError → perform_automatic_unban e = false)
      ∧ (resolve_guild_ok e.guild_cached e.fetch_guild = true →
          e.unban = ApiCall.success → perform_automatic_unban e = true))
    ∧ (∀ e : UnmuteEnv,
      (resolve_guild_ok e.guild_cached e.fetch_guild = false →
        perform_automatic_unmute e = false)
      ∧ (resolve_guild_ok e.guild_cached e.fetch_guild = true →
          e.member_cached = false → e.fetch_member = ApiCall.notFound →
          perform_automatic_unmute e = true)
      ∧ (e.member_cached = false → e.fetch_member = ApiCall.forbidden →
          perform_automatic_unmute e = false)
      ∧ (e.member_cached = false → e.fetch_member = ApiCall.httpError →
          perform_automatic_unmute e = false)
      ∧ (resolve_guild_ok e.guild_cached e.fetch_guild = true →
          (e.member_cached = true ∨ e.fetch_member = ApiCall.success) →
          e.timeout = ApiCall.notFound → perform_automatic_unmute e = true)
      ∧ ((e.member_cached = true ∨ e.fetch_member = ApiCall.success) →
          e.timeout = ApiCall.forbidden → perform_automatic_unmute e = false)
      ∧ ((e.member_cached = true ∨ e.fetch_member = ApiCall.success) →
          e.timeout = ApiCall.httpError → perform_automatic_unmute e = false)
      ∧ (resolve_guild_ok e.guild_cached e.fetch_guild = true →
          (e.member_cached = true ∨ e.fetch_member = ApiCall.success) →
          e.timeout = ApiCall.success → perform_automatic_unmute e = true)) := by
  constructor
  · rintro ⟨gc, fg, ub⟩
    cases gc <;> cases fg <;> cases ub <;>
      simp [perform_automatic_unban, resolve_guild_ok]
  · rintro ⟨gc, fg, mc, fm, tm⟩
    cases gc <;> cases fg <;> cases mc <;> cases fm <;> cases tm <;>
      simp [perform_automatic_unmute, resolve_guild_ok, timeout_outcome]

/-- Concrete instantiations of every line of the classification table. -/
theorem executor_outcome_classification_witness :
    perform_automatic_unban ⟨false, ApiCall.httpError, ApiCall.success⟩ = false
    ∧ perform_automatic_unban ⟨true, ApiCall.httpError, ApiCall.notFound⟩ = true
    ∧ perform_automatic_unban ⟨false, ApiCall.success, ApiCall.forbidden⟩ = false
    ∧ perform_automatic_unban ⟨true, ApiCall.success, ApiCall.httpError⟩ = false
    ∧ perform_automatic_unban ⟨true, ApiCall.notFound, ApiCall.success⟩ = true
    ∧ perform_automatic_unmute
        ⟨false, ApiCall.forbidden, true, ApiCall.success, ApiCall.success⟩ = false
    ∧ perform_automatic_unmute
        ⟨true, ApiCall.success, false, ApiCall.notFound, ApiCall.httpError⟩ = true
    ∧ perform_automatic_unmute
        ⟨true, ApiCall.success, false, ApiCall.forbidden, ApiCall.success⟩ = false
    ∧ perform_automatic_unmute
        ⟨true, ApiCall.success, false, ApiCall.httpError, ApiCall.success⟩ = false
    ∧ perform_automatic_unmute
        ⟨true, ApiCall.success, true, ApiCall.success, ApiCall.notFound⟩ = true
    ∧ perform_automatic_unmute
        ⟨false, ApiCall.success, false, ApiCall.success, ApiCall.forbidden⟩ = false
    ∧ perform_automatic_unmute
        ⟨true, ApiCall.success, true, ApiCall.success, ApiCall.httpError⟩ = false
    ∧ perform_automatic_unmute
        ⟨true, ApiCall.notFound, true, ApiCall.success, ApiCall.success⟩ = true := by
  refine ⟨?_, ?_, ?_, ?_, ?_, ?_, ?_, ?_, ?_, ?_, ?_, ?_, ?_⟩
  · exact (executor_outcome_classification.1 _).1 (by decide)
  · exact (executor_outcome_classification.1 _).2.1 (by decide) rfl
  · exact (executor_outcome_classification.1 _).2.2.1 rfl
  · exact (executor_outcome_classification.1 _).2.2.2.1 rfl
  · exact (executor_outcome_classification.1 _).2.2.2.2 (by decide) rfl
  · exact (executor_outcome_classification.2 _).1 (by decide)
  · exact (executor_outcome_classification.2 _).2.1 (by decide) rfl rfl
  · exact (executor_outcome_classification.2 _).2.2.1 rfl rfl
  · exact (executor_outcome_classification.2 _).2.2.2.1 rfl rfl
  · exact (executor_outcome_classification.2 _).2.2.2.2.1 (by decide) (Or.inl rfl) rfl
  · exact (executor_outcome_classification.2 _).2.2.2.2.2.1 (Or.inr rfl) rfl
  · exact (executor_outcome_classification.2 _).2.2.2.2.2.2.1 (Or.inl rfl) rfl
  · exact (executor_outcome_classification.2 _).2.2.2.2.2.2.2 (by decide) (Or.inl rfl) rfl

/-! ## C8 — double close of a ticket -/

/-- The `SET` clause of the conditional close update. -/
def close_update (b : Nat) (r : String) (n : Int) (x : TicketRow) : TicketRow :=
  { x with
    status := ACTION_TICKET_CLOSED
    closed_at := some n
    closed_by := some b
    closed_reason := some r }

theorem close_ticket_record_eq_map (t : TicketTable) (c b : Nat) (r : String)
    (n : Int) :
    close_ticket_record t c b r n
      = t.map fun x => if openWithChannel c x then close_update b r n x else x := by
  rfl

theorem openWithChannel_close_update (c b : Nat) (r : String) (n : Int)
    (x : TicketRow) : openWithChannel c (close_update b r n x) = false := by
  rw [openWithChannel, close_update]
  cases h2 : (x.channel_id == c) <;> simp [h2, ACTION_TICKET_CLOSED, ACTION_TICKET_OPEN]

/-- After a close, no row of the table is still an open row for that
channel. -/
theorem close_ticket_record_no_open (t : TicketTable) (c b : Nat) (r : String)
    (n : Int) :
    (close_ticket_record t c b r n).filter (openWithChannel c) = [] := by
  rw [close_ticket_record_eq_map, List.filter_eq_nil_iff]
  intro x hx
  rw [List.mem_map] at hx
  obtain ⟨y, _, rfl⟩ := hx
  by_cases hy : openWithChannel c y = true
  · simp [hy, openWithChannel_close_update]
  · simp only [Bool.not_eq_true] at hy
    simp [hy]

/-- C8: `close_ticket_record` updates only rows that are currently Open for
the channel.  Starting from a table whose only open row for the channel is
`row`, the first call affects exactly one row and turns it into the Closed
row carrying its `closed_at`/`closed_by`/`closed_reason`; a second call
affects zero rows and leaves the table bit-for-bit unchanged, so the first
close's fields are never overwritten. -/
theorem close_ticket_double_close (t : TicketTable) (c b1 b2 : Nat)
    (r1 r2 : String) (n1 n2 : Int) (row : TicketRow)
    (hrows : t.filter (openWithChannel c) = [row]) :
    close_affected t c = 1
    ∧ close_update b1 r1 n1 row ∈ close_ticket_record t c b1 r1 n1
    ∧ close_affected (close_ticket_record t c b1 r1 n1) c = 0
    ∧ close_ticket_record (close_ticket_record t c b1 r1 n1) c b2 r2 n2
        = close_ticket_record t c b1 r1 n1 := by
  have hmem : row ∈ t ∧ openWithChannel c row = true := by
    have h1 : row ∈ t.filter (openWithChannel c) := by
      rw [hrows]; exact List.mem_singleton.2 rfl
    exact ⟨List.mem_of_mem_filter h1, List.of_mem_filter h1⟩
  refine ⟨?_, ?_, ?_, ?_⟩
  · rw [close_affected, hrows]; rfl
  · rw [close_ticket_record_eq_map, List.mem_map]
    exact ⟨row, hmem.1, by rw [if_pos hmem.2]⟩
  · rw [close_affected, close_ticket_record_no_open]; rfl
  · rw [close_ticket_record_eq_map, close_ticket_record_eq_map, List.map_map]
    apply List.map_congr_left
    intro x _
    simp only [Function.comp_apply]
    by_cases hx : openWithChannel c x = true
    · rw [if_pos hx, if_neg]
      rw [openWithChannel_close_update]
      simp
    · simp only [Bool.not_eq_true] at hx
      simp [hx]

/-- Witness: a one-row table holding the open ticket for channel 10. -/
theorem close_ticket_double_close_witness :
    close_affected [⟨10, 1, 1, 2, ACTION_TICKET_OPEN, [], 0, none, none, none⟩] 10 = 1
    ∧ close_update 7 "done" 50 ⟨10, 1, 1, 2, ACTION_TICKET_OPEN, [], 0, none, none, none⟩
      ∈ close_ticket_record
          [⟨10, 1, 1, 2, ACTION_TICKET_OPEN, [], 0, none, none, none⟩] 10 7 "done" 50
    ∧ close_affected
        (close_ticket_record
          [⟨10, 1, 1, 2, ACTION_TICKET_OPEN, [], 0, none, none, none⟩] 10 7 "done" 50)
        10 = 0
    ∧ close_ticket_record
        (close_ticket_record
          [⟨10, 1, 1, 2, ACTION_TICKET_OPEN, [], 0, none, none, none⟩] 10 7 "done" 50)
        10 8 "again" 60
      = close_ticket_record
          [⟨10, 1, 1, 2, ACTION_TICKET_OPEN, [], 0, none, none, none⟩] 10 7 "done" 50 :=
  close_ticket_double_close
    [⟨10, 1, 1, 2, ACTION_TICKET_OPEN, [], 0, none, none, none⟩]
    10 7 8 "done" "again" 50 60
    ⟨10, 1, 1, 2, ACTION_TICKET_OPEN, [], 0, none, none, none⟩ (by decide)

/-! ## C7 — the per-guild ticket counter -/

theorem counter_lookup_append (t : CounterTable) (g : Nat) (v : Int)
    (h : counter_lookup t g = none) :
    counter_lookup (t ++ [(g, v)]) g = some v := by
  induction t with
  | nil => simp [counter_lookup]
  | cons p rest ih =>
    cases hp : (p.1 == g)
    · have h' : counter_lookup rest g = none := by
        simpa [counter_lookup, List.find?, hp] using h
      simpa [counter_lookup, List.find?, hp] using ih h'
    · exact absurd h (by simp [counter_lookup, List.find?, hp])

theorem counter_lookup_update (t : CounterTable) (g : Nat) (x : Int) (v : Int)
    (h : counter_lookup t g = some v) :
    counter_lookup (t.map fun p => if p.1 == g then (p.1, x) else p) g = some x := by
  induction t with
  | nil => simp [counter_lookup] at h
  | cons p rest ih =>
    cases hp : (p.1 == g)
    · have h' : counter_lookup rest g = some v := by
        simpa [counter_lookup, List.find?, hp] using h
      simpa [counter_lookup, List.find?, hp] using ih h'
    · simp [counter_lookup, List.find?, hp]

/-- One call always returns `counter_base + 1` and persists it. -/
theorem next_ticket_number_step (t : CounterTable) (g : Nat) :
    (next_ticket_number t g).1 = counter_base t g + 1
    ∧ counter_lookup (next_ticket_number t g).2 g = some (counter_base t g + 1) := by
  rw [next_ticket_number, counter_base]
  cases h : counter_lookup t g with
  | none => simpa using counter_lookup_append t g 1 h
  | some v => simpa using counter_lookup_update t g (v + 1) v h

/-- C7: `next_ticket_number` returns 1 and persists `last_number = 1` when
no counter row exists, otherwise returns and persists the stored
`last_number + 1`; N successive calls for the same guild therefore return
the consecutive run `base+1, …, base+N` — distinct, gap-free — and the
persisted counter always equals the last number returned. -/
theorem next_ticket_number_spec (t : CounterTable) (g : Nat) :
    (counter_lookup t g = none →
      next_ticket_number t g = (1, t ++ [(g, 1)])
      ∧ counter_lookup (next_ticket_number t g).2 g = some 1)
    ∧ (∀ v, counter_lookup t g = some v →
      (next_ticket_number t g).1 = v + 1
      ∧ counter_lookup (next_ticket_number t g).2 g = some (v + 1))
    ∧ (∀ n, (run_next t g n).1
        = (List.range n).map (fun i : Nat => counter_base t g + (i : Int) + 1)
      ∧ (1 ≤ n →
          counter_lookup (run_next t g n).2 g = some (counter_base t g + (n : Int)))) := by
  refine ⟨?_, ?_, ?_⟩
  · intro h
    constructor
    · rw [next_ticket_number, h]
    · have := (next_ticket_number_step t g).2
      rwa [counter_base, h] at this
  · intro v h
    have h1 := (next_ticket_number_step t g).1
    have h2 := (next_ticket_number_step t g).2
    rw [counter_base, h] at h1 h2
    exact ⟨h1, h2⟩
  · intro n
    induction n generalizing t with
    | zero => simp [run_next]
    | succ k ih =>
      have hstep := next_ticket_number_step t g
      have hbase2 : counter_base (next_ticket_number t g).2 g = counter_base t g + 1 := by
        rw [counter_base, hstep.2]; rfl
      have ihk := ih (next_ticket_number t g).2
      constructor
      · rw [run_next]
        simp only [hstep.1, ihk.1, hbase2, List.range_succ_eq_map, List.map_cons,
          List.map_map, List.cons.injEq]
        constructor
        · push_cast; ring
        · apply List.map_congr_left
          intro i _
          simp only [Function.comp_apply]
          push_cast; ring
      · intro _
        rw [run_next]
        rcases Nat.eq_zero_or_pos k with hk | hk
        · subst hk
          simpa [run_next, Nat.cast_one] using hstep.2
        · have := ihk.2 hk
          rw [hbase2] at this
          rw [this]
          congr 1
          push_cast; ring

/-- Witness: a fresh guild gets 1; a guild whose counter reads 3 gets 4;
three successive calls starting from 3 return 4, 5, 6 with 6 persisted. -/
theorem next_ticket_number_spec_witness :
    (next_ticket_number [] 5 = (1, [(5, 1)])
      ∧ counter_lookup (next_ticket_number [] 5).2 5 = some 1)
    ∧ ((next_ticket_number [(5, 3)] 5).1 = 3 + 1
      ∧ counter_lookup (next_ticket_number [(5, 3)] 5).2 5 = some (3 + 1))
    ∧ ((run_next [(5, 3)] 5 3).1
        = (List.range 3).map (fun i : Nat => counter_base [(5, 3)] 5 + (i : Int) + 1)
      ∧ counter_lookup (run_next [(5, 3)] 5 3).2 5
          = some (counter_base [(5, 3)] 5 + (3 : Nat))) :=
  ⟨(next_ticket_number_spec [] 5).1 rfl,
   (next_ticket_number_spec [(5, 3)] 5).2.1 3 rfl,
   ((next_ticket_number_spec [(5, 3)] 5).2.2 3).1,
   ((next_ticket_number_spec [(5, 3)] 5).2.2 3).2 (by decide)⟩

/-! ## Key lemmas for the `temporary_actions` table -/

/-- Well-formedness delivered by the table's primary key: pairwise distinct
`(action_type, guild_id, user_id)` triples. -/
def TempWf (t : TempTable) : Prop :=
  t.Pairwise fun x y => x.key ≠ y.key

theorem rowMatches_iff (a : String) (g u : Nat) (r : TempRow) :
    rowMatches a g u r = true ↔ r.key = (a, g, u) := by
  simp [rowMatches, TempRow.key, Prod.ext_iff, and_assoc]

/-- The `SET` clause of the upsert. -/
def save_update (e : Int) (rs : String) (now : Int) (r : TempRow) : TempRow :=
  { r with expires_at := e, reason := rs, created_at := now }

theorem save_update_key (e : Int) (rs : String) (now : Int) (r : TempRow) :
    (save_update e rs now r).key = r.key := rfl

theorem save_temporary_action_eq (t : TempTable) (a : String) (g u : Nat)
    (e : Int) (rs : String) (now : Int) :
    save_temporary_action t a g u e rs now
      = if t.any (rowMatches a g u) then
          t.map fun r => if rowMatches a g u r then save_update e rs now r else r
        else t ++ [⟨a, g, u, e, rs, now⟩] := rfl

theorem rowMatches_save_update_if (a : String) (g u : Nat) (e : Int)
    (rs : String) (now : Int) (r : TempRow) :
    rowMatches a g u (if rowMatches a g u r then save_update e rs now r else r)
      = rowMatches a g u r := by
  by_cases hr : rowMatches a g u r = true
  · rw [if_pos hr, hr]
    rw [rowMatches_iff, save_update_key, ← rowMatches_iff, hr]
  · simp only [Bool.not_eq_true] at hr
    rw [hr, if_neg (by simp [hr]), hr]

/-- In a well-formed table, at most one row matches a key. -/
theorem filter_rowMatches_le_one (t : TempTable) (a : String) (g u : Nat)
    (hwf : TempWf t) : (t.filter (rowMatches a g u)).length ≤ 1 := by
  induction t with
  | nil => simp
  | cons r rest ih =>
    replace hwf : (∀ x ∈ rest, r.key ≠ x.key) ∧ TempWf rest := List.pairwise_cons.1 hwf
    by_cases hr : rowMatches a g u r = true
    · have hnone : rest.filter (rowMatches a g u) = [] := by
        rw [List.filter_eq_nil_iff]
        intro x hx hmx
        exact hwf.1 x hx
          (((rowMatches_iff a g u r).1 hr).trans ((rowMatches_iff a g u x).1 hmx).symm)
      simp [List.filter_cons, hr, hnone]
    · simp only [Bool.not_eq_true] at hr
      simpa [List.filter_cons, hr] using ih hwf.2

/-- In a well-formed table the upsert leaves exactly one row for the key:
the one carrying the new expiry, reason and creation time. -/
theorem save_rows_for (t : TempTable) (a : String) (g u : Nat) (e : Int)
    (rs : String) (now : Int) (hwf : TempWf t) :
    table_rows_for (save_temporary_action t a g u e rs now) a g u
      = [⟨a, g, u, e, rs, now⟩] := by
  rw [table_rows_for, save_temporary_action_eq]
  by_cases hany : t.any (rowMatches a g u) = true
  · rw [if_pos hany,
      filter_map_comm _ _ _ (rowMatches_save_update_if a g u e rs now)]
    obtain ⟨r0, hr0m, hr0⟩ := List.any_eq_true.1 hany
    have hne : t.filter (rowMatches a g u) ≠ [] := by
      intro hnil
      have := List.mem_filter.2 ⟨hr0m, hr0⟩
      rw [hnil] at this
      exact absurd this (List.not_mem_nil r0)
    have hlen := filter_rowMatches_le_one t a g u hwf
    match hft : t.filter (rowMatches a g u) with
    | [] => exact absurd hft hne
    | x :: y :: l => rw [hft] at hlen; simp at hlen
    | [x] =>
      have hx : rowMatches a g u x = true := List.of_mem_filter (p := rowMatches a g u)
        (by rw [hft]; exact List.mem_singleton.2 rfl)
      have hxkey := (rowMatches_iff a g u x).1 hx
      rw [List.map_cons, List.map_nil, if_pos hx]
      obtain ⟨xa, xg, xu, xe, xr, xc⟩ := x
      simp only [TempRow.key, Prod.mk.injEq] at hxkey
      simp [save_update, hxkey.1, hxkey.2.1, hxkey.2.2]
  · rw [if_neg hany, List.filter_append]
    have hnil : t.filter (rowMatches a g u) = [] := by
      rw [List.filter_eq_nil_iff]
      intro x hx hmx
      exact absurd (List.any_eq_true.2 ⟨x, hx, hmx⟩) hany
    rw [hnil]
    simp [rowMatches]

/-- Deleting a key leaves no row for it. -/
theorem delete_rows_for (t : TempTable) (a : String) (g u : Nat) :
    table_rows_for (delete_temporary_action t a g u) a g u = [] := by
  rw [table_rows_for, delete_temporary_action]
  exact filter_not_filter (rowMatches a g u) t

/-- The upsert preserves the primary-key invariant. -/
theorem save_wf (t : TempTable) (a : String) (g u : Nat) (e : Int)
    (rs : String) (now : Int) (hwf : TempWf t) :
    TempWf (save_temporary_action t a g u e rs now) := by
  rw [TempWf, save_temporary_action_eq]
  by_cases hany : t.any (rowMatches a g u) = true
  · rw [if_pos hany, List.pairwise_map]
    apply hwf.imp_of_mem
    intro x y _ _ hxy
    by_cases hx : rowMatches a g u x = true <;> by_cases hy : rowMatches a g u y = true <;>
      simp only [Bool.not_eq_true] at hx hy <;>
      simp [hx, hy, save_update_key, hxy]
  · rw [if_neg hany, List.pairwise_append]
    refine ⟨hwf, List.pairwise_singleton _ _, ?_⟩
    intro x hx y hy
    rw [List.mem_singleton] at hy
    subst hy
    intro hkey
    have hmx : rowMatches a g u x = true := (rowMatches_iff a g u x).2 (by
      rw [hkey]; rfl)
    exact absurd (List.any_eq_true.2 ⟨x, hx, hmx⟩) hany

/-! ## C3 — two successive persist-and-schedule calls: last writer wins -/

theorem tasks_filter_not (l : List TaskEntry) (k : ActionKey) :
    (l.filter fun x : TaskEntry => !(x.key == k)).filter
        (fun x : TaskEntry => x.key == k) = [] :=
  filter_not_filter (fun x : TaskEntry => x.key == k) l

theorem tasks_of_schedule (s : SchedState) (a : String) (g u : Nat) (e : Int)
    (rs : String) :
    (schedule_temporary_action s a g u e rs).tasks
      = (s.tasks.filter fun x : TaskEntry => !(x.key == (a, g, u)))
          ++ [⟨(a, g, u), s.nextTask, e, rs⟩]
    ∧ (schedule_temporary_action s a g u e rs).nextTask = s.nextTask + 1 := by
  constructor <;> rfl

/-- C3: after `save_temporary_action; schedule_temporary_action` twice for
the same `(kind, guild, user)` key (the ban/mute command sequence), the
store holds exactly one `temporary_actions` row for the key — carrying the
second call's expiry and reason — and the in-memory registry holds exactly
one task for the key: the second one, which replaced the cancelled first. -/
theorem schedule_twice_last_wins (s : SchedState) (a : String) (g u : Nat)
    (e1 e2 : Int) (r1 r2 : String) (n1 n2 : Int) (hwf : TempWf s.table) :
    table_rows_for
      (schedule_with_persist (schedule_with_persist s a g u e1 r1 n1) a g u e2 r2 n2).table
      a g u
      = [⟨a, g, u, e2, r2, n2⟩]
    ∧ tasks_for
        (schedule_with_persist (schedule_with_persist s a g u e1 r1 n1) a g u e2 r2 n2)
        (a, g, u)
      = [⟨(a, g, u), s.nextTask + 1, e2, r2⟩] := by
  constructor
  · have htab :
        (schedule_with_persist (schedule_with_persist s a g u e1 r1 n1) a g u e2 r2 n2).table
          = save_temporary_action (save_temporary_action s.table a g u e1 r1 n1)
              a g u e2 r2 n2 := rfl
    rw [htab]
    exact save_rows_for _ a g u e2 r2 n2 (save_wf _ a g u e1 r1 n1 hwf)
  · have htasks :
        (schedule_with_persist (schedule_with_persist s a g u e1 r1 n1) a g u e2 r2 n2).tasks
          = (((s.tasks.filter fun x : TaskEntry => !(x.key == (a, g, u)))
                ++ [(⟨(a, g, u), s.nextTask, e1, r1⟩ : TaskEntry)]).filter
              fun x : TaskEntry => !(x.key == (a, g, u)))
            ++ [(⟨(a, g, u), s.nextTask + 1, e2, r2⟩ : TaskEntry)] := rfl
    rw [tasks_for, htasks]
    simp [List.filter_append, tasks_filter_not]

/-- Witness: starting from the empty scheduler state. -/
theorem schedule_twice_last_wins_witness :
    table_rows_for
      (schedule_with_persist
        (schedule_with_persist ⟨[], [], 0⟩ "ban" 1 2 100 "first" 10)
        "ban" 1 2 200 "second" 20).table
      "ban" 1 2
      = [⟨"ban", 1, 2, 200, "second", 20⟩]
    ∧ tasks_for
        (schedule_with_persist
          (schedule_with_persist ⟨[], [], 0⟩ "ban" 1 2 100 "first" 10)
          "ban" 1 2 200 "second" 20)
        ("ban", 1, 2)
      = [⟨("ban", 1, 2), 0 + 1, 200, "second"⟩] :=
  schedule_twice_last_wins ⟨[], [], 0⟩ "ban" 1 2 100 200 "first" "second" 10 20
    (List.Pairwise.nil)

/-! ## C1 — the retry loop: fixed backoff, delete on Done -/

/-- C1: for a pending action task of a recognized kind, a transient-failure
outcome (Retry) makes the loop compute `nextAttempt = now +
RETRY_DELAY_SECONDS` (= 600, fixed, not exponential), overwrite the
persisted row with that expiry and the same reason, and loop; a Done
outcome — and likewise an unrecognized kind — deletes the row and
terminates the task without rescheduling. -/
theorem process_step_retry_done (t : TempTable) (a : String) (g u : Nat)
    (reason : String) (now : Int) (outcome : Nat → Bool) (time : Nat → Int)
    (hwf : TempWf t) :
    RETRY_DELAY_SECONDS = 600
    ∧ ((a = ACTION_BAN ∨ a = ACTION_MUTE) →
        process_step t a g u reason now false
          = (save_temporary_action t a g u (now + 600) reason now, some (now + 600))
        ∧ table_rows_for (process_step t a g u reason now false).1 a g u
          = [⟨a, g, u, now + 600, reason, now⟩])
    ∧ (process_step t a g u reason now true = (delete_temporary_action t a g u, none)
        ∧ table_rows_for (process_step t a g u reason now true).1 a g u = [])
    ∧ (¬(a = ACTION_BAN ∨ a = ACTION_MUTE) → ∀ b : Bool,
        process_step t a g u reason now b = (delete_temporary_action t a g u, none))
    ∧ (∀ fuel i, (a = ACTION_BAN ∨ a = ACTION_MUTE) →
        (outcome i = true →
          process_run a g u reason outcome time (fuel + 1) i t
            = some (delete_temporary_action t a g u))
        ∧ (outcome i = false →
          process_run a g u reason outcome time (fuel + 1) i t
            = process_run a g u reason outcome time fuel (i + 1)
                (save_temporary_action t a g u (time i + 600) reason (time i)))) := by
  have hkind : ∀ h : a = ACTION_BAN ∨ a = ACTION_MUTE,
      (a == ACTION_BAN || a == ACTION_MUTE) = true := by
    rintro (h | h) <;> simp [h]
  have hstep_false : (a = ACTION_BAN ∨ a = ACTION_MUTE) →
      process_step t a g u reason now false
        = (save_temporary_action t a g u (now + 600) reason now, some (now + 600)) := by
    intro h
    rw [process_step, if_pos (hkind h)]
    rfl
  have hstep_true :
      process_step t a g u reason now true = (delete_temporary_action t a g u, none) := by
    rw [process_step]
    by_cases h : (a == ACTION_BAN || a == ACTION_MUTE) = true
    · rw [if_pos h]; rfl
    · rw [if_neg h]
  refine ⟨rfl, ?_, ?_, ?_, ?_⟩
  · intro h
    refine ⟨hstep_false h, ?_⟩
    rw [hstep_false h]
    exact save_rows_for t a g u (now + 600) reason now hwf
  · refine ⟨hstep_true, ?_⟩
    rw [hstep_true]
    exact delete_rows_for t a g u
  · intro h b
    rw [process_step, if_neg]
    intro hk
    rcases Bool.or_eq_true_iff.1 hk with hb | hb
    · exact h (Or.inl (by simpa using hb))
    · exact h (Or.inr (by simpa using hb))
  · intro fuel i h
    constructor
    · intro hout
      rw [process_run, hout]
      have hs : process_step t a g u reason (time i) true
          = (delete_temporary_action t a g u, none) := by
        rw [process_step]
        by_cases hc : (a == ACTION_BAN || a == ACTION_MUTE) = true
        · rw [if_pos hc]; rfl
        · rw [if_neg hc]
      rw [hs]
    · intro hout
      rw [process_run, hout]
      have hs : process_step t a g u reason (time i) false
          = (save_temporary_action t a g u (time i + 600) reason (time i),
              some (time i + 600)) := by
        rw [process_step, if_pos (hkind h)]
        rfl
      rw [hs]

/-- Witness: a `ban` task over a one-row table, retrying at time 1000 and
succeeding at the next attempt. -/
theorem process_step_retry_done_witness :
    RETRY_DELAY_SECONDS = 600
    ∧ (process_step [⟨"ban", 1, 2, 100, "r", 0⟩] "ban" 1 2 "r" 1000 false
        = (save_temporary_action [⟨"ban", 1, 2, 100, "r", 0⟩] "ban" 1 2 (1000 + 600) "r" 1000,
            some (1000 + 600))
      ∧ table_rows_for
          (process_step [⟨"ban", 1, 2, 100, "r", 0⟩] "ban" 1 2 "r" 1000 false).1 "ban" 1 2
        = [⟨"ban", 1, 2, 1000 + 600, "r", 1000⟩])
    ∧ (process_step [⟨"ban", 1, 2, 100, "r", 0⟩] "ban" 1 2 "r" 1000 true
        = (delete_temporary_action [⟨"ban", 1, 2, 100, "r", 0⟩] "ban" 1 2, none)
      ∧ table_rows_for
          (process_step [⟨"ban", 1, 2, 100, "r", 0⟩] "ban" 1 2 "r" 1000 true).1 "ban" 1 2
        = [])
    ∧ (process_run "ban" 1 2 "r" (fun i => i == 1) (fun i => 1000 + 600 * (i : Int)) 1 0
          [⟨"ban", 1, 2, 100, "r", 0⟩]
        = process_run "ban" 1 2 "r" (fun i => i == 1) (fun i => 1000 + 600 * (i : Int)) 0 1
            (save_temporary_action [⟨"ban", 1, 2, 100, "r", 0⟩] "ban" 1 2
              ((1000 + 600 * ((0 : Nat) : Int)) + 600) "r" (1000 + 600 * ((0 : Nat) : Int)))) := by
  have h := process_step_retry_done [⟨"ban", 1, 2, 100, "r", 0⟩] "ban" 1 2 "r" 1000
    (fun i => i == 1) (fun i => 1000 + 600 * (i : Int)) (by simp [TempWf])
  exact ⟨h.1, h.2.1 (Or.inl rfl), h.2.2.1, (h.2.2.2.2 0 0 (Or.inl rfl)).2 rfl⟩

/-! ## C2 — restore of an already-expired row runs immediately -/

theorem schedule_preserves_entry (s : SchedState) (a : String) (g u : Nat)
    (e : Int) (rs : String) (ent : TaskEntry) (hne : ent.key ≠ (a, g, u))
    (hmem : ent ∈ s.tasks) :
    ent ∈ (schedule_temporary_action s a g u e rs).tasks := by
  rw [(tasks_of_schedule s a g u e rs).1]
  exact List.mem_append_left _ (List.mem_filter.2 ⟨hmem, by simp [hne]⟩)

theorem foldl_schedule_preserves (rs : List TempRow) (s : SchedState)
    (ent : TaskEntry) (hmem : ent ∈ s.tasks)
    (hall : ∀ r ∈ rs, (r.action_type, r.guild_id, r.user_id) ≠ ent.key) :
    ent ∈ (rs.foldl
      (fun st r => schedule_temporary_action st r.action_type r.guild_id
        r.user_id r.expires_at r.reason) s).tasks := by
  induction rs generalizing s with
  | nil => exact hmem
  | cons x rest ih =>
    rw [List.foldl_cons]
    refine ih _ ?_ fun r hr => hall r (List.mem_cons_of_mem x hr)
    exact schedule_preserves_entry s _ _ _ _ _ ent
      (fun hk => hall x (List.mem_cons_self x rest) (hk ▸ rfl)) hmem

theorem foldl_schedule_mem (rs : List TempRow) (s : SchedState) (row : TempRow)
    (hmem : row ∈ rs) (hpw : rs.Pairwise fun x y => x.key ≠ y.key) :
    ∃ tid, (⟨row.key, tid, row.expires_at, row.reason⟩ : TaskEntry)
      ∈ (rs.foldl
          (fun st r => schedule_temporary_action st r.action_type r.guild_id
            r.user_id r.expires_at r.reason) s).tasks := by
  induction rs generalizing s with
  | nil => exact absurd hmem (List.not_mem_nil row)
  | cons x rest ih =>
    obtain ⟨hx, hpw2⟩ := List.pairwise_cons.1 hpw
    rw [List.foldl_cons]
    rcases List.mem_cons.1 hmem with hrow | hrow
    · subst hrow
      refine ⟨s.nextTask, foldl_schedule_preserves rest _ _ ?_ ?_⟩
      · rw [(tasks_of_schedule s row.action_type row.guild_id row.user_id
          row.expires_at row.reason).1]
        exact List.mem_append_right _ (List.mem_singleton.2 rfl)
      · intro r hr
        exact fun hk => hx r hr hk.symm
    · exact ih _ hrow hpw2

/-- C2: for every persisted row whose expiry is at or before the current
time, `restore_temporary_actions` registers a task for the row's key with
the persisted expiry and reason; that task computes
`delay = max(0, expiresAt − now) = 0` (so it performs the reversal attempt
without sleeping), and when the attempt reports Done the loop deletes the
row — no row for the key remains — and terminates. -/
theorem restore_expired_runs_immediately (s : SchedState) (row : TempRow)
    (now : Int) (hmem : row ∈ s.table) (hwf : TempWf s.table)
    (hexp : row.expires_at ≤ now) :
    (∃ tid, (⟨(row.action_type, row.guild_id, row.user_id), tid,
        row.expires_at, row.reason⟩ : TaskEntry)
      ∈ (restore_temporary_actions s).tasks)
    ∧ compute_delay row.expires_at now = 0
    ∧ process_step s.table row.action_type row.guild_id row.user_id row.reason now true
        = (delete_temporary_action s.table row.action_type row.guild_id row.user_id,
            none)
    ∧ table_rows_for
        (delete_temporary_action s.table row.action_type row.guild_id row.user_id)
        row.action_type row.guild_id row.user_id = [] := by
  refine ⟨?_, ?_, ?_, ?_⟩
  · exact foldl_schedule_mem s.table s row hmem hwf
  · rw [compute_delay]
    exact max_eq_left (by omega)
  · rw [process_step]
    by_cases hc : (row.action_type == ACTION_BAN || row.action_type == ACTION_MUTE) = true
    · rw [if_pos hc]; rfl
    · rw [if_neg hc]
  · exact delete_rows_for s.table row.action_type row.guild_id row.user_id

/-- Witness: one persisted mute that expired at time 50, restored at time
100. -/
theorem restore_expired_runs_immediately_witness :
    (∃ tid, (⟨("mute", 3, 4), tid, 50, "expired"⟩ : TaskEntry)
      ∈ (restore_temporary_actions ⟨[⟨"mute", 3, 4, 50, "expired", 0⟩], [], 0⟩).tasks)
    ∧ compute_delay 50 100 = 0
    ∧ process_step [⟨"mute", 3, 4, 50, "expired", 0⟩] "mute" 3 4 "expired" 100 true
        = (delete_temporary_action [⟨"mute", 3, 4, 50, "expired", 0⟩] "mute" 3 4, none)
    ∧ table_rows_for
        (delete_temporary_action [⟨"mute", 3, 4, 50, "expired", 0⟩] "mute" 3 4)
        "mute" 3 4 = [] :=
  restore_expired_runs_immediately ⟨[⟨"mute", 3, 4, 50, "expired", 0⟩], [], 0⟩
    ⟨"mute", 3, 4, 50, "expired", 0⟩ 100 (List.mem_singleton.2 rfl)
    (by simp [TempWf]) (by norm_num)

/-! ## C9 — the open-ticket quota gate -/

/-- C9: when the requesting user already has at least
`max_open_tickets` open tickets in the guild, ticket creation is rejected
at the quota gate — before `next_ticket_number` runs and before any row is
inserted: the returned database state is the input state, bit for bit
(tickets table and counter table both unchanged), whatever the subject,
bot member or channel-creation outcome would have been. -/
theorem create_quota_rejected (db : TicketDb) (e : CreateEnv) (now : Int)
    (settings : TicketSettings) (hg : e.in_guild = true)
    (hs : e.settings = some settings) (hc : e.category_ok = true)
    (hr : e.support_role_ok = true)
    (hq : settings.max_open_tickets ≤
      (count_open_tickets_for_owner db.tickets e.guild_id e.actor_id : Int)) :
    create_ticket_for_interaction db e now = (db, CreateResult.quotaExceeded) := by
  rw [create_ticket_for_interaction, hg, hs]
  simp only [Bool.not_true, Bool.false_eq_true, if_false]
  rw [hc, hr]
  simp only [Bool.not_true, Bool.false_eq_true, if_false]
  rw [if_pos hq]

/-- Witness: `max_open_tickets = 1` and one open ticket already held; the
environment would otherwise have allowed creation. -/
theorem create_quota_rejected_witness :
    create_ticket_for_interaction
      ⟨[⟨10, 1, 1, 2, ACTION_TICKET_OPEN, [], 0, none, none, none⟩], [(1, 1)]⟩
      ⟨true, some ⟨1, 20, 30, none, none, 1, "ticket"⟩, true, true, true, 1, 2,
        none, some 11⟩
      99
      = (⟨[⟨10, 1, 1, 2, ACTION_TICKET_OPEN, [], 0, none, none, none⟩], [(1, 1)]⟩,
          CreateResult.quotaExceeded) :=
  create_quota_rejected
    ⟨[⟨10, 1, 1, 2, ACTION_TICKET_OPEN, [], 0, none, none, none⟩], [(1, 1)]⟩
    ⟨true, some ⟨1, 20, 30, none, none, 1, "ticket"⟩, true, true, true, 1, 2,
      none, some 11⟩
    99 ⟨1, 20, 30, none, none, 1, "ticket"⟩ rfl rfl rfl rfl (by decide)

/-! ## C4 — what `parse_duration` accepts -/

/-- The claim as stated fails in both directions.  Python's `int` also
accepts a sign, surrounding whitespace, and underscore digit separators,
so `"0:0:0:+1"` parses successfully although it is not four
colon-separated plain decimal numerals.  And `"1000000000:0:0:0"` is four
plain decimal numerals within the claimed bounds with positive total, yet
the `timedelta` construction raises an uncaught `OverflowError` (not a
`ValueError`) because the day count exceeds 999999999. -/
theorem parse_duration_claim_counterexample :
    parse_duration ("0:0:0:+1".toList) = Except.ok 1
    ∧ claimed_valid_duration ("0:0:0:+1".toList) = false
    ∧ claimed_valid_duration ("1000000000:0:0:0".toList) = true
    ∧ parse_duration ("1000000000:0:0:0".toList) = Except.error PyError.overflowError := by
  exact ⟨rfl, rfl, rfl, rfl⟩

/-- The three C4 conclusions at the level of the four converted integers:
success exactly on in-bound valid values, `OverflowError` exactly past the
`timedelta` bound, `ValueError` everywhere else. -/
theorem parse_core_spec (d h m s : Int) :
    ((∃ t, (if d < 0 || h < 0 || m < 0 || s < 0 then
        (Except.error (PyError.valueError "Duration values cannot be negative")
          : Except PyError Int)
      else if 23 < h || 59 < m || 59 < s then
        Except.error (PyError.valueError "Hours must be <= 23, minutes/seconds <= 59")
      else if TIMEDELTA_MAX_SECONDS < d * 86400 + h * 3600 + m * 60 + s then
        Except.error PyError.overflowError
      else if d * 86400 + h * 3600 + m * 60 + s ≤ 0 then
        Except.error (PyError.valueError "Duration must be greater than zero")
      else Except.ok (d * 86400 + h * 3600 + m * 60 + s)) = Except.ok t)
    ↔ (0 ≤ d && 0 ≤ h && 0 ≤ m && 0 ≤ s && h ≤ 23 && m ≤ 59 && s ≤ 59
        && 0 < d * 86400 + h * 3600 + m * 60 + s
        && d * 86400 + h * 3600 + m * 60 + s ≤ TIMEDELTA_MAX_SECONDS) = true)
    ∧ ((0 ≤ d && 0 ≤ h && 0 ≤ m && 0 ≤ s && h ≤ 23 && m ≤ 59 && s ≤ 59
        && TIMEDELTA_MAX_SECONDS < d * 86400 + h * 3600 + m * 60 + s) = true →
      (if d < 0 || h < 0 || m < 0 || s < 0 then
        (Except.error (PyError.valueError "Duration values cannot be negative")
          : Except PyError Int)
      else if 23 < h || 59 < m || 59 < s then
        Except.error (PyError.valueError "Hours must be <= 23, minutes/seconds <= 59")
      else if TIMEDELTA_MAX_SECONDS < d * 86400 + h * 3600 + m * 60 + s then
        Except.error PyError.overflowError
      else if d * 86400 + h * 3600 + m * 60 + s ≤ 0 then
        Except.error (PyError.valueError "Duration must be greater than zero")
      else Except.ok (d * 86400 + h * 3600 + m * 60 + s))
        = Except.error PyError.overflowError)
    ∧ ((0 ≤ d && 0 ≤ h && 0 ≤ m && 0 ≤ s && h ≤ 23 && m ≤ 59 && s ≤ 59
        && 0 < d * 86400 + h * 3600 + m * 60 + s
        && d * 86400 + h * 3600 + m * 60 + s ≤ TIMEDELTA_MAX_SECONDS) = false →
      (0 ≤ d && 0 ≤ h && 0 ≤ m && 0 ≤ s && h ≤ 23 && m ≤ 59 && s ≤ 59
        && TIMEDELTA_MAX_SECONDS < d * 86400 + h * 3600 + m * 60 + s) = false →
      ∃ msg, (if d < 0 || h < 0 || m < 0 || s < 0 then
        (Except.error (PyError.valueError "Duration values cannot be negative")
          : Except PyError Int)
      else if 23 < h || 59 < m || 59 < s then
        Except.error (PyError.valueError "Hours must be <= 23, minutes/seconds <= 59")
      else if TIMEDELTA_MAX_SECONDS < d * 86400 + h * 3600 + m * 60 + s then
        Except.error PyError.overflowError
      else if d * 86400 + h * 3600 + m * 60 + s ≤ 0 then
        Except.error (PyError.valueError "Duration must be greater than zero")
      else Except.ok (d * 86400 + h * 3600 + m * 60 + s))
        = Except.error (PyError.valueError msg)) := by
  refine ⟨?_, ?_, ?_⟩
  · constructor
    · rintro ⟨t, ht⟩
      by_cases hneg : (d < 0 || h < 0 || m < 0 || s < 0) = true
      · rw [if_pos hneg] at ht; exact absurd ht (by simp)
      rw [if_neg hneg] at ht
      by_cases hbnd : (23 < h || 59 < m || 59 < s) = true
      · rw [if_pos hbnd] at ht; exact absurd ht (by simp)
      rw [if_neg hbnd] at ht
      by_cases hover : TIMEDELTA_MAX_SECONDS < d * 86400 + h * 3600 + m * 60 + s
      · rw [if_pos hover] at ht; exact absurd ht (by simp)
      rw [if_neg hover] at ht
      by_cases htot : d * 86400 + h * 3600 + m * 60 + s ≤ 0
      · rw [if_pos htot] at ht; exact absurd ht (by simp)
      simp only [Bool.or_eq_true, decide_eq_true_eq, not_or, not_lt] at hneg hbnd
      simp only [Bool.and_eq_true, decide_eq_true_eq]
      omega
    · intro hval
      simp only [Bool.and_eq_true, decide_eq_true_eq] at hval
      refine ⟨d * 86400 + h * 3600 + m * 60 + s, ?_⟩
      rw [if_neg (by simp only [Bool.or_eq_true, decide_eq_true_eq, not_or, not_lt]; omega),
        if_neg (by simp only [Bool.or_eq_true, decide_eq_true_eq, not_or, not_lt]; omega),
        if_neg (by omega), if_neg (by omega)]
  · intro hover
    simp only [Bool.and_eq_true, decide_eq_true_eq] at hover
    rw [if_neg (by simp only [Bool.or_eq_true, decide_eq_true_eq, not_or, not_lt]; omega),
      if_neg (by simp only [Bool.or_eq_true, decide_eq_true_eq, not_or, not_lt]; omega),
      if_pos (by omega)]
  · intro hv ho
    by_cases hneg : (d < 0 || h < 0 || m < 0 || s < 0) = true
    · exact ⟨_, by rw [if_pos hneg]⟩
    by_cases hbnd : (23 < h || 59 < m || 59 < s) = true
    · exact ⟨_, by rw [if_neg hneg, if_pos hbnd]⟩
    by_cases hover : TIMEDELTA_MAX_SECONDS < d * 86400 + h * 3600 + m * 60 + s
    · exfalso
      simp only [Bool.or_eq_true, decide_eq_true_eq, not_or, not_lt] at hneg hbnd
      simp only [Bool.and_eq_true, decide_eq_true_eq, Bool.and_eq_false_iff,
        decide_eq_false_iff_not, not_le, not_lt] at ho
      omega
    by_cases htot : d * 86400 + h * 3600 + m * 60 + s ≤ 0
    · exact ⟨_, by rw [if_neg hneg, if_neg hbnd, if_neg hover, if_pos htot]⟩
    · exfalso
      simp only [Bool.or_eq_true, decide_eq_true_eq, not_or, not_lt] at hneg hbnd
      simp only [Bool.and_eq_true, decide_eq_true_eq, Bool.and_eq_false_iff,
        decide_eq_false_iff_not, not_le, not_lt] at hv
      omega

/-- C4 (amended, scoped to ASCII input): `parse_duration raw` succeeds iff
`raw` splits on `:` into exactly four parts each accepted by Python's
`int` (optional surrounding whitespace, optional sign, digits with single
underscores between digits) with a nonnegative value, hours ≤ 23,
minutes ≤ 59, seconds ≤ 59, positive total, and total within the
`timedelta` bound; past that bound — valid parts whose total overflows —
the `timedelta` constructor raises an uncaught `OverflowError`; every
other input yields a user-facing `ValueError`; and `parse_duration` is a
pure function of its argument.  (Outside the ASCII scope Python's `int`
additionally accepts Unicode digits and whitespace, which this embedding
does not model.) -/
theorem parse_duration_ok_iff (raw : List Char)
    (_hascii : (raw.all fun c => decide (c.toNat ≤ 127)) = true) :
    ((∃ t, parse_duration raw = Except.ok t) ↔ py_valid_duration raw = true)
    ∧ (py_overflow_duration raw = true →
        parse_duration raw = Except.error PyError.overflowError)
    ∧ (py_valid_duration raw = false → py_overflow_duration raw = false →
        ∃ msg, parse_duration raw = Except.error (PyError.valueError msg)) := by
  unfold parse_duration py_valid_duration py_overflow_duration
  rcases hsp : splitOnColon raw with _ | ⟨p1, _ | ⟨p2, _ | ⟨p3, _ | ⟨p4, _ | ⟨p5, ps⟩⟩⟩⟩⟩
  · exact ⟨by simp, by simp, fun _ _ => ⟨_, rfl⟩⟩
  · exact ⟨by simp, by simp, fun _ _ => ⟨_, rfl⟩⟩
  · exact ⟨by simp, by simp, fun _ _ => ⟨_, rfl⟩⟩
  · exact ⟨by simp, by simp, fun _ _ => ⟨_, rfl⟩⟩
  · rcases h1 : pyInt? p1 with _ | d
    · simp only [h1]; exact ⟨by simp, by simp, fun _ _ => ⟨_, rfl⟩⟩
    rcases h2 : pyInt? p2 with _ | h
    · simp only [h1, h2]; exact ⟨by simp, by simp, fun _ _ => ⟨_, rfl⟩⟩
    rcases h3 : pyInt? p3 with _ | m
    · simp only [h1, h2, h3]; exact ⟨by simp, by simp, fun _ _ => ⟨_, rfl⟩⟩
    rcases h4 : pyInt? p4 with _ | s
    · simp only [h1, h2, h3, h4]; exact ⟨by simp, by simp, fun _ _ => ⟨_, rfl⟩⟩
    simp only [h1, h2, h3, h4]
    exact parse_core_spec d h m s
  · exact ⟨by simp, by simp, fun _ _ => ⟨_, rfl⟩⟩

/-- Witness: `"0:0:10:0"` succeeds, `"1000000000:0:0:0"` overflows, and
`"0:0:0:0"` raises a `ValueError` — all ASCII. -/
theorem parse_duration_ok_iff_witness :
    (∃ t, parse_duration ("0:0:10:0".toList) = Except.ok t)
    ∧ parse_duration ("1000000000:0:0:0".toList) = Except.error PyError.overflowError
    ∧ ∃ msg, parse_duration ("0:0:0:0".toList) = Except.error (PyError.valueError msg) :=
  ⟨(parse_duration_ok_iff ("0:0:10:0".toList) (by decide)).1.2 (by rfl),
   (parse_duration_ok_iff ("1000000000:0:0:0".toList) (by decide)).2.1 (by rfl),
   (parse_duration_ok_iff ("0:0:0:0".toList) (by decide)).2.2 (by rfl) (by rfl)⟩

/-! ## C5 — parse/format round trip: digit and rendering lemmas -/

theorem dval_digitChar (k : Nat) (hk : k ≤ 9) : dval (digitChar k) = k := by
  interval_cases k <;> rfl

theorem isDigit_digitChar (k : Nat) : (digitChar k).isDigit = true := by
  rcases k with _ | _ | _ | _ | _ | _ | _ | _ | _ | k <;> rfl

theorem natRepr_ne_nil (n : Nat) : natRepr n ≠ [] := by
  rw [natRepr]
  split
  · simp
  · simp

theorem natRepr_all_digits (n : Nat) : (natRepr n).all Char.isDigit = true := by
  induction n using Nat.strong_induction_on with
  | _ n ih =>
    rw [natRepr]
    split
    · simp [isDigit_digitChar]
    · rename_i hn
      rw [List.all_append, Bool.and_eq_true]
      exact ⟨ih (n / 10) (Nat.div_lt_self (by omega) (by omega)),
        by simp [isDigit_digitChar]⟩

theorem foldl_natRepr (n : Nat) : ∀ acc : Nat,
    (natRepr n).foldl (fun a c => 10 * a + dval c) acc
      = acc * 10 ^ (natRepr n).length + n := by
  induction n using Nat.strong_induction_on with
  | _ n ih =>
    intro acc
    rw [natRepr]
    split
    · rename_i hn
      simp only [List.foldl_cons, List.foldl_nil, List.length_singleton, pow_one]
      rw [dval_digitChar n (by omega)]
      ring
    · rename_i hn
      rw [List.foldl_append, List.length_append, List.foldl_cons, List.foldl_nil,
        List.length_singleton, ih (n / 10) (Nat.div_lt_self (by omega) (by omega)),
        dval_digitChar (n % 10) (by omega)]
      have hdecomp : 10 * (n / 10) + n % 10 = n := by omega
      calc 10 * (acc * 10 ^ (natRepr (n / 10)).length + n / 10) + n % 10
          = acc * 10 ^ ((natRepr (n / 10)).length + 1) + (10 * (n / 10) + n % 10) := by
            rw [pow_succ]; ring
        _ = acc * 10 ^ ((natRepr (n / 10)).length + 1) + n := by rw [hdecomp]

theorem pyDigitsCore_all_digits (l : List Char) (h : l.all Char.isDigit = true) :
    ∀ acc : Nat, pyDigitsCore acc l
      = some (l.foldl (fun a c => 10 * a + dval c) acc) := by
  induction l with
  | nil => intro acc; rfl
  | cons c cs ih =>
    intro acc
    rw [List.all_cons, Bool.and_eq_true] at h
    cases cs with
    | nil => simp [pyDigitsCore, h.1]
    | cons d cs2 =>
      rw [List.foldl_cons]
      rw [show pyDigitsCore acc (c :: d :: cs2)
          = if c.isDigit then pyDigitsCore (10 * acc + dval c) (d :: cs2)
            else if c == '_' && d.isDigit then pyDigitsCore (10 * acc + dval d) cs2
            else none from rfl]
      rw [if_pos h.1]
      exact ih h.2 _

theorem pyDigits_natRepr (n : Nat) : pyDigits? (natRepr n) = some n := by
  rcases hl : natRepr n with _ | ⟨c, cs⟩
  · exact absurd hl (natRepr_ne_nil n)
  · have hall : (c :: cs).all Char.isDigit = true := hl ▸ natRepr_all_digits n
    rw [List.all_cons, Bool.and_eq_true] at hall
    rw [pyDigits?, if_pos hall.1, pyDigitsCore_all_digits cs hall.2]
    have hfold := foldl_natRepr n 0
    rw [hl, List.foldl_cons] at hfold
    norm_num at hfold
    rw [hfold]

theorem isPySpace_of_isDigit (c : Char) (h : c.isDigit = true) :
    isPySpace c = false := by
  by_cases hs : isPySpace c = true
  · exfalso
    rcases (by simpa [isPySpace, or_assoc] using hs :
        c = ' ' ∨ c = '\t' ∨ c = '\n' ∨ c = '\r' ∨ c = '\x0b' ∨ c = '\x0c'
          ∨ c = '\x1c' ∨ c = '\x1d' ∨ c = '\x1e' ∨ c = '\x1f') with
      rfl | rfl | rfl | rfl | rfl | rfl | rfl | rfl | rfl | rfl <;>
      exact absurd h (by decide)
  · simpa using hs

theorem dropWhile_eq_self_of_none (p : Char → Bool) (l : List Char)
    (h : ∀ c ∈ l, p c = false) : l.dropWhile p = l := by
  cases l with
  | nil => rfl
  | cons c cs =>
    rw [List.dropWhile_cons, if_neg]
    rw [h c (List.mem_cons_self c cs)]
    simp

theorem pyTrim_all_digits (l : List Char) (h : l.all Char.isDigit = true) :
    pyTrim l = l := by
  have hns : ∀ c ∈ l, isPySpace c = false := by
    intro c hc
    exact isPySpace_of_isDigit c (List.all_eq_true.1 h c hc)
  rw [pyTrim, dropWhile_eq_self_of_none _ l hns,
    dropWhile_eq_self_of_none _ l.reverse (fun c hc => hns c (List.mem_reverse.1 hc)),
    List.reverse_reverse]

theorem digit_not_sign (c : Char) (h : c.isDigit = true) :
    (c == '+') = false ∧ (c == '-') = false := by
  constructor
  · by_cases hc : c = '+'
    · subst hc; exact absurd h (by decide)
    · simp [hc]
  · by_cases hc : c = '-'
    · subst hc; exact absurd h (by decide)
    · simp [hc]

theorem pyInt_natRepr (n : Nat) : pyInt? (natRepr n) = some (n : Int) := by
  have hall : (natRepr n).all Char.isDigit = true := natRepr_all_digits n
  have htrim : pyTrim (natRepr n) = natRepr n := pyTrim_all_digits _ hall
  rcases hl : natRepr n with _ | ⟨c, cs⟩
  · exact absurd hl (natRepr_ne_nil n)
  · rw [hl] at hall htrim
    have hall2 := hall
    rw [List.all_cons, Bool.and_eq_true] at hall2
    have hsign := digit_not_sign c hall2.1
    rw [pyInt?, htrim]
    simp only [hsign.1, hsign.2, Bool.false_eq_true, if_false]
    rw [← hl, pyDigits_natRepr n]
    rfl

/-! ## C5 — splitting the canonical duration string -/

theorem digit_not_colon (c : Char) (h : c.isDigit = true) : (c == ':') = false := by
  by_cases hc : c = ':'
  · subst hc; exact absurd h (by decide)
  · simp [hc]

theorem splitOnColon_ne_nil (l : List Char) : splitOnColon l ≠ [] := by
  cases l with
  | nil => simp [splitOnColon]
  | cons c cs =>
    rw [splitOnColon]
    rcases h : splitOnColon cs with _ | ⟨g, gs⟩
    · simp only [h]
      simp
    · simp only [h]
      split <;> simp

theorem splitOnColon_no_colon (l : List Char)
    (h : ∀ c ∈ l, (c == ':') = false) : splitOnColon l = [l] := by
  induction l with
  | nil => rfl
  | cons c cs ih =>
    rw [splitOnColon, ih fun x hx => h x (List.mem_cons_of_mem c hx)]
    simp [h c (List.mem_cons_self c cs)]

theorem splitOnColon_append (l rest : List Char)
    (h : ∀ c ∈ l, (c == ':') = false) :
    splitOnColon (l ++ ':' :: rest) = l :: splitOnColon rest := by
  induction l with
  | nil =>
    rw [List.nil_append, splitOnColon]
    rcases hr : splitOnColon rest with _ | ⟨g, gs⟩
    · exact absurd hr (splitOnColon_ne_nil rest)
    · simp only [hr]
      simp
  | cons c cs ih =>
    rw [List.cons_append, splitOnColon, ih fun x hx => h x (List.mem_cons_of_mem c hx)]
    simp [h c (List.mem_cons_self c cs)]

theorem natRepr_no_colon (n : Nat) :
    ∀ c ∈ natRepr n, (c == ':') = false := fun c hc =>
  digit_not_colon c (List.all_eq_true.1 (natRepr_all_digits n) c hc)

theorem splitOnColon_durationString (d h m s : Nat) :
    splitOnColon (durationString d h m s)
      = [natRepr d, natRepr h, natRepr m, natRepr s] := by
  rw [durationString,
    splitOnColon_append _ _ (natRepr_no_colon d),
    splitOnColon_append _ _ (natRepr_no_colon h),
    splitOnColon_append _ _ (natRepr_no_colon m),
    splitOnColon_no_colon _ (natRepr_no_colon s)]

theorem intRepr_natCast (n : Nat) : intRepr (n : Int) = natRepr n := by
  rw [intRepr, if_neg (by omega)]
  norm_num

/-- A canonically rendered duration within the hour/minute/second bounds
whose total exceeds the `timedelta` bound parses to `OverflowError`. -/
theorem parse_duration_overflow (d h m s : Nat) (hh : h ≤ 23) (hm : m ≤ 59)
    (hs : s ≤ 59)
    (hover : TIMEDELTA_MAX_SECONDS
      < (d : Int) * 86400 + (h : Int) * 3600 + (m : Int) * 60 + (s : Int)) :
    parse_duration (durationString d h m s)
      = Except.error PyError.overflowError := by
  unfold parse_duration
  simp only [splitOnColon_durationString, pyInt_natRepr]
  rw [if_neg (by simp only [Bool.or_eq_true, decide_eq_true_eq, not_or, not_lt]; omega),
    if_neg (by simp only [Bool.or_eq_true, decide_eq_true_eq, not_or, not_lt]; omega),
    if_pos hover]

/-- The C5 claim fails as stated: at the canonical rendering of
`1000000000:0:0:0` — a valid duration per the claim's conditions (h ≤ 23,
m ≤ 59, s ≤ 59, total > 0) — the program's `timedelta` construction
raises an uncaught `OverflowError` (days > 999999999), so nothing
round-trips. -/
theorem parse_format_roundtrip_counterexample :
    0 < 1000000000 * 86400 + 0 * 3600 + 0 * 60 + 0
    ∧ parse_duration (durationString 1000000000 0 0 0)
        = Except.error PyError.overflowError :=
  ⟨by norm_num,
   parse_duration_overflow 1000000000 0 0 0 (by norm_num) (by norm_num)
     (by norm_num) (by decide)⟩

/-- C5 (amended with the `timedelta` day bound): for every valid duration
`d:h:m:s` with days ≤ 999999999, hours ≤ 23, minutes ≤ 59, seconds ≤ 59
and positive total, rendered with canonical decimal numerals,
`parse_duration` accepts it with total seconds
`d·86400 + h·3600 + m·60 + s`, and `format_duration` of that total —
which decomposes the total back into days/hours/minutes/seconds — renders
exactly `{d}d {h}h {m}m {s}s`. -/
theorem parse_format_roundtrip (d h m s : Nat) (hd : d ≤ 999999999)
    (hh : h ≤ 23) (hm : m ≤ 59)
    (hs : s ≤ 59) (hpos : 0 < d * 86400 + h * 3600 + m * 60 + s) :
    parse_duration (durationString d h m s)
      = Except.ok ((d : Int) * 86400 + (h : Int) * 3600 + (m : Int) * 60 + (s : Int))
    ∧ format_duration ((d : Int) * 86400 + (h : Int) * 3600 + (m : Int) * 60 + (s : Int))
      = natRepr d ++ 'd' :: ' ' :: natRepr h ++ 'h' :: ' ' :: natRepr m
          ++ 'm' :: ' ' :: natRepr s ++ ['s'] := by
  constructor
  · unfold parse_duration
    simp only [splitOnColon_durationString, pyInt_natRepr]
    rw [if_neg (by simp only [Bool.or_eq_true, decide_eq_true_eq, not_or, not_lt]; omega),
      if_neg (by simp only [Bool.or_eq_true, decide_eq_true_eq, not_or, not_lt]; omega),
      if_neg (by simp only [TIMEDELTA_MAX_SECONDS, not_lt]; omega),
      if_neg (by omega)]
  · have h1 : ((d : Int) * 86400 + (h : Int) * 3600 + (m : Int) * 60 + (s : Int)) / 86400
        = (d : Int) := by omega
    have h2 : ((d : Int) * 86400 + (h : Int) * 3600 + (m : Int) * 60 + (s : Int)) % 86400
        = (h : Int) * 3600 + (m : Int) * 60 + (s : Int) := by omega
    have h3 : ((h : Int) * 3600 + (m : Int) * 60 + (s : Int)) / 3600 = (h : Int) := by omega
    have h4 : ((h : Int) * 3600 + (m : Int) * 60 + (s : Int)) % 3600
        = (m : Int) * 60 + (s : Int) := by omega
    have h5 : ((m : Int) * 60 + (s : Int)) / 60 = (m : Int) := by omega
    have h6 : ((m : Int) * 60 + (s : Int)) % 60 = (s : Int) := by omega
    rw [format_duration]
    simp only [h1, h2, h3, h4, h5, h6, intRepr_natCast]

/-- Witness: the duration string `1:2:3:4` (one day, two hours, three
minutes, four seconds). -/
theorem parse_format_roundtrip_witness :
    parse_duration (durationString 1 2 3 4)
      = Except.ok (((1 : Nat) : Int) * 86400 + ((2 : Nat) : Int) * 3600
          + ((3 : Nat) : Int) * 60 + ((4 : Nat) : Int))
    ∧ format_duration (((1 : Nat) : Int) * 86400 + ((2 : Nat) : Int) * 3600
          + ((3 : Nat) : Int) * 60 + ((4 : Nat) : Int))
      = natRepr 1 ++ 'd' :: ' ' :: natRepr 2 ++ 'h' :: ' ' :: natRepr 3
          ++ 'm' :: ' ' :: natRepr 4 ++ ['s'] :=
  parse_format_roundtrip 1 2 3 4 (by norm_num) (by norm_num) (by norm_num)
    (by norm_num) (by norm_num)

end Kiero
